import Mathlib

/- Verification of the Telegram bot in `main.py` against its specification.

   The program is shallowly embedded.  Each Python handler becomes a Lean
   function over an explicit per-user session state (`UserData`, mirroring
   the `context.user_data` dictionary), an environment (`Env`) describing
   the outcomes of external calls during one handler invocation, and a
   trace of outward effects (`Effect`).  Telegram API calls are routed
   through `tg`, which consults the environment and either records the
   effect or throws (modelling a transport exception); `requests` calls
   are modelled by `Env.httpResult`.  A handler invocation finishes either
   normally (`HRes.done`) or with an uncaught exception escaping the
   handler (`HRes.raised`). -/

/-! ## Python string primitives (ASCII fragment), modelling the library -/

/-- Whitespace characters of Python `str.strip()` and of the regex class
    `\s` (ASCII fragment; the claims only involve ASCII data). -/
def pyIsSpace (c : Char) : Bool :=
  c == ' ' || c == '\t' || c == '\n' || c == '\r' || c == '\x0b' || c == '\x0c'

/-- Word characters of the regex class `\w` (ASCII fragment):
    letters, digits and the underscore. -/
def pyIsWordChar (c : Char) : Bool :=
  (decide ('a' ≤ c) && decide (c ≤ 'z')) ||
  (decide ('A' ≤ c) && decide (c ≤ 'Z')) ||
  (decide ('0' ≤ c) && decide (c ≤ '9')) || c == '_'

/-- Python `str.strip()`: drop leading and trailing whitespace. -/
def pyStrip (s : String) : String :=
  String.mk (((s.data.dropWhile pyIsSpace).reverse.dropWhile pyIsSpace).reverse)

/-- Python `str.split(sep)` for a one-character separator, on lists of
    characters.  `"a_b".split("_") = ["a","b"]`, `"a_".split("_") = ["a",""]`,
    `"a".split("_") = ["a"]`. -/
def splitOnChar (sep : Char) : List Char → List (List Char)
  | [] => [[]]
  | c :: rest =>
    let r := splitOnChar sep rest
    if c == sep then [] :: r
    else
      match r with
      | hd :: tl => (c :: hd) :: tl
      | [] => [[c]]

/-- Python `str.split(sep)` for a one-character separator. -/
def pySplit (s : String) (sep : Char) : List String :=
  (splitOnChar sep s.data).map String.mk

/-- Python `str.startswith(pre)`. -/
def pyStartsWith (s pre : String) : Bool :=
  List.isPrefixOf pre.data s.data

/-! ## base64 (modelling the `base64` library used by the program) -/

/-- The base64 alphabet. -/
def b64chars : List Char :=
  "ABCDEFGHIJKLMNOPQRSTUVWXYZabcdefghijklmnopqrstuvwxyz0123456789+/".data

/-- Character of a 6-bit value. -/
def b64chr (n : Nat) : Char := b64chars.getD n 'A'

/-- Encode a byte list, three bytes at a time, as in `base64.b64encode`. -/
def b64encodeChars : List Nat → List Char
  | [] => []
  | [a] =>
    let a := a % 256
    [b64chr (a / 4), b64chr ((a % 4) * 16), '=', '=']
  | [a, b] =>
    let a := a % 256
    let b := b % 256
    [b64chr (a / 4), b64chr ((a % 4) * 16 + b / 16), b64chr ((b % 16) * 4), '=']
  | a :: b :: c :: rest =>
    let a := a % 256
    let b := b % 256
    let c := c % 256
    b64chr (a / 4) :: b64chr ((a % 4) * 16 + b / 16) ::
      b64chr ((b % 16) * 4 + c / 64) :: b64chr (c % 64) :: b64encodeChars rest

/-- `base64.b64encode(...).decode('utf-8')`. -/
def b64encode (bytes : List Nat) : String := String.mk (b64encodeChars bytes)

/-- Value of a base64 alphabet character. -/
def b64val (c : Char) : Option Nat := List.findIdx? (· == c) b64chars

/-- Decode four base64 characters at a time; `none` models the
    `binascii.Error` thrown by `base64.b64decode` on malformed input. -/
def b64decodeChars : List Char → Option (List Nat)
  | [] => some []
  | c1 :: c2 :: c3 :: c4 :: rest =>
    match b64val c1, b64val c2 with
    | some v1, some v2 =>
      if c3 == '=' then
        if c4 == '=' && rest.isEmpty then some [v1 * 4 + v2 / 16] else none
      else
        match b64val c3 with
        | some v3 =>
          if c4 == '=' then
            if rest.isEmpty then some [v1 * 4 + v2 / 16, (v2 % 16) * 16 + v3 / 4]
            else none
          else
            match b64val c4 with
            | some v4 =>
              match b64decodeChars rest with
              | some bs =>
                some ([v1 * 4 + v2 / 16, (v2 % 16) * 16 + v3 / 4, (v3 % 4) * 64 + v4] ++ bs)
              | none => none
            | none => none
        | none => none
    | _, _ => none
  | _ => none

/-- `base64.b64decode`. -/
def b64decode (s : String) : Option (List Nat) := b64decodeChars s.data

/-! ## Configuration constants (from the top of `main.py`) -/

def ALLOWED_CHAT_ID : Int := 12345678

def BEARER_TOKEN : String := "YOUR_BEARER_TOKEN_HERE"

def BOT_USERNAME : String := "BOT_USERNAME"

def CAPTION_ENDPOINT : String := "https://example.com/generate-captions"

def UPSCALE_ENDPOINT : String := "https://example.com/upscale"

def THUMBNAIL_ENDPOINT : String := "https://example.com/generate-thumbnail"

/-! ## Data model -/

/-- The per-user session dictionary `context.user_data`.  A missing key and
    a key stored with a falsy value are indistinguishable through
    `user_data.get`, so flags are `Bool` (default `false`) and references
    are `Option String` (default `none`).  `user_data.clear()` resets every
    field to its default. -/
structure UserData where
  waiting_for_rename_image : Bool := false
  waiting_for_rename_filename : Bool := false
  photo_file_id : Option String := none
  rename_file_id : Option String := none
  rename_file_type : Option String := none
deriving DecidableEq

/-- An inline keyboard button: label and callback payload. -/
structure Button where
  label : String
  callback_data : String
deriving DecidableEq

/-- The two-button menu offered after an image is received. -/
def main_menu_keyboard : List (List Button) :=
  [[⟨"🔍 Upscale", "upscale_menu"⟩, ⟨"🖼️ Thumbnail", "thumbnail"⟩]]

/-- The upscale submenu: three scale options plus Back. -/
def upscale_menu_keyboard : List (List Button) :=
  [[⟨"2x", "upscale_2x"⟩, ⟨"4x (Default)", "upscale_4x"⟩, ⟨"8x", "upscale_8x"⟩],
   [⟨"← Back", "back_to_main"⟩]]

/-- An outbound JSON POST issued through `requests.post`.  `auth` is the
    value of the `Authorization` header when one is sent; the
    `Content-Type: application/json` header is implicit in the JSON body. -/
structure PostRequest where
  url : String
  auth : Option String
  body : List (String × String)
  timeout : Nat
deriving DecidableEq

/-- Observable effects of one handler invocation, in order. -/
inductive Effect where
  | replyText (text : String)
  | replyTextMarkup (text : String) (kb : List (List Button))
  | replyHtml (text : String)
  | sendChatAction (action : String)
  | answerCallbackQuery
  | editMessageText (text : String) (kb : Option (List (List Button)))
  | deleteQueryMessage
  | deleteProcessingMessage
  | getFile (file_id : String)
  | downloadFile
  | sendDocument (filename : String) (caption : String) (content : List Nat)
  | httpGet (url : String) (params : List (String × String)) (timeout : Nat)
  | httpPost (req : PostRequest)
deriving DecidableEq

/-- Outcome of the single remote-service call of an invocation:
    a `requests` exception (network error, timeout, non-2xx status via
    `raise_for_status`), a body whose `.json()` parse throws, or a parsed
    JSON object (modelled as its string-valued fields). -/
inductive HttpResult where
  | requestError
  | badJson
  | ok (fields : List (String × String))
deriving DecidableEq

/-- Field lookup in a parsed JSON object: `'k' in result` / `result['k']`. -/
def lookupField (fields : List (String × String)) (key : String) : Option String :=
  (fields.find? (fun p => p.1 == key)).map (fun p => p.2)

/-- Environment of one handler invocation: whether the i-th Telegram API
    call succeeds, the bytes produced by downloading the referenced file,
    and the outcome of the remote-service HTTP call. -/
structure Env where
  telegramOk : Nat → Bool
  imageBytes : List Nat
  httpResult : HttpResult

/-- Running state of an invocation: the session dictionary, the effect
    trace so far, and the index of the next Telegram API call. -/
structure St where
  ud : UserData
  effects : List Effect
  k : Nat
deriving DecidableEq

/-- Exception classes distinguished by the `except` clauses:
    `requests.exceptions.RequestException` versus everything else. -/
inductive Exn where
  | requestExn
  | otherExn
deriving DecidableEq

/-- Result of a code block that may throw. -/
inductive BRes where
  | ok (s : St)
  | exn (e : Exn) (s : St)
deriving DecidableEq

/-- Result of a string-returning code block that may throw. -/
inductive StrRes where
  | ok (v : String) (s : St)
  | exn (e : Exn) (s : St)
deriving DecidableEq

/-- Result of a whole handler: normal return, or an exception escaping. -/
inductive HRes where
  | done (s : St)
  | raised (s : St)
deriving DecidableEq

/-- One Telegram API call (reply, edit, answer, get_file, download, send,
    delete): records its effect on success, throws a (non-requests)
    exception on failure. -/
def tg (env : Env) (e : Effect) (s : St) : BRes :=
  if env.telegramOk s.k then BRes.ok { s with effects := s.effects ++ [e], k := s.k + 1 }
  else BRes.exn Exn.otherExn s

/-- A handler whose final statement is a Telegram call: normal return on
    success, the exception escapes on failure. -/
def finish : BRes → HRes
  | .ok s => .done s
  | .exn _ s => .raised s

/-- An inbound image, as the registered filters deliver it: a photo
    (carrying the file id of the largest size, `photo[-1]`), or a document
    with its mime type. -/
inductive Attachment where
  | photo (file_id : String)
  | document (file_id : String) (mime_type : String)
deriving DecidableEq

/-- An inbound update event, per the handler registrations in `main`. -/
inductive Event where
  | cmd_start
  | cmd_share
  | cmd_rename
  | text (t : String)
  | image (att : Attachment)
  | callback (data : String)
deriving DecidableEq

/-! ## The handlers, translated from `main.py` -/

/-- `check_chat_permission`. -/
def check_chat_permission (chat_id : Int) : Bool :=
  chat_id == ALLOWED_CHAT_ID

/-- `start`. -/
def start (env : Env) (chat_id : Int) (s : St) : HRes :=
  if !check_chat_permission chat_id then
    finish (tg env (.replyText "You are not authorized to use this bot.") s)
  else
    finish (tg env (.replyText ("Welcome! Send me:\n📷 An image - I\x27ll give you upscale or thumbnail options\n📝 Text - I\x27ll generate captions for you\n📤 Use /share to get the group link\n🏷️ Use /rename to rename image files")) s)

/-- `share`. -/
def share (env : Env) (chat_id : Int) (s : St) : HRes :=
  if !check_chat_permission chat_id then
    finish (tg env (.replyText "You are not authorized to use this bot.") s)
  else
    finish (tg env (.replyHtml ("Telegram ⤵\n<a href=\"https://t.me/" ++ BOT_USERNAME ++ "\">t.me/" ++ BOT_USERNAME ++ "</a>")) s)

/-- `rename`: prompt, then set `waiting_for_rename_image`.  Note the
    handler sets only that flag; it touches no other session key. -/
def rename (env : Env) (chat_id : Int) (s : St) : HRes :=
  if !check_chat_permission chat_id then
    finish (tg env (.replyText "You are not authorized to use this bot.") s)
  else
    match tg env (.replyText "📸 Please send me a photo or image document that you want to rename.") s with
    | .exn _ s1 => .raised s1
    | .ok s1 => .done { s1 with ud := { s1.ud with waiting_for_rename_image := true } }

/-- The sanitization inside `process_rename_with_filename`:
    `re.sub(r'[^\w\s\-_]', '', filename.strip()).replace(' ', '_')`.
    The single-character `str.replace` is modelled as a character map. -/
def clean_filename (filename : String) : String :=
  let stripped := pyStrip filename
  let kept := stripped.data.filter fun c => pyIsWordChar c || pyIsSpace c || c == '-'
  String.mk (kept.map fun c => if c == ' ' then '_' else c)

/-- The `try` body of `process_rename_with_filename`. -/
def rename_try (env : Env) (filename : String) (s : St) : BRes :=
  match s.ud.rename_file_id with
  | none =>
    match tg env (.replyText "❌ Error: No image found. Please start over with /rename") s with
    | .exn e s1 => .exn e s1
    | .ok s1 => .ok { s1 with ud := {} }
  | some file_id =>
    let cleaned := clean_filename filename
    if cleaned == "" then
      tg env (.replyText "❌ Please provide a valid filename with letters, numbers, spaces, hyphens, or underscores only.") s
    else
      let new_filename := cleaned ++ ".png"
      match tg env (.replyText "🔄 Renaming your image... Please wait.") s with
      | .exn e s1 => .exn e s1
      | .ok s1 =>
        match tg env (.getFile file_id) s1 with
        | .exn e s2 => .exn e s2
        | .ok s2 =>
          match tg env .downloadFile s2 with
          | .exn e s3 => .exn e s3
          | .ok s3 =>
            match tg env (.sendDocument new_filename ("✅ Image renamed to: " ++ new_filename) env.imageBytes) s3 with
            | .exn e s4 => .exn e s4
            | .ok s4 =>
              match tg env .deleteProcessingMessage s4 with
              | .exn e s5 => .exn e s5
              | .ok s5 => .ok { s5 with ud := {} }

/-- `process_rename_with_filename`: the `try` body above, then the
    `except Exception` clause (error reply, then `user_data.clear()`).
    An exception thrown by the error reply itself escapes. -/
def process_rename_with_filename (env : Env) (filename : String) (s : St) : HRes :=
  match rename_try env filename s with
  | .ok s1 => .done s1
  | .exn _ s1 =>
    match tg env (.replyText "❌ An error occurred while renaming the image. Please try again.") s1 with
    | .ok s2 => .done { s2 with ud := {} }
    | .exn _ s2 => .raised s2

/-- Shared tail of `process_rename_image` once a valid image is captured:
    store the file reference and kind, clear `waiting_for_rename_image`,
    set `waiting_for_rename_filename`, then prompt for the filename. -/
def rename_image_captured (env : Env) (kind file_id : String) (s : St) : HRes :=
  let s1 := { s with ud := { s.ud with
                             rename_file_id := some file_id
                             rename_file_type := some kind } }
  let s2 := { s1 with ud := { s1.ud with
                              waiting_for_rename_image := false
                              waiting_for_rename_filename := true } }
  finish (tg env (.replyText "✅ Image received! Now please send me the new filename (without extension).\nExample: my_new_image\nThe file will be saved as: your_name.png") s2)

/-- `process_rename_image`. -/
def process_rename_image (env : Env) (att : Attachment) (s : St) : HRes :=
  match att with
  | .photo file_id => rename_image_captured env "photo" file_id s
  | .document file_id mime_type =>
    if pyStartsWith mime_type "image/" then
      rename_image_captured env "document" file_id s
    else
      finish (tg env (.replyText "❌ Please send a valid image file.") s)

/-- Shared tail of `handle_image` outside the rename flow: store
    `photo_file_id` and present the two-button menu. -/
def image_menu (env : Env) (file_id : String) (s : St) : HRes :=
  let s1 := { s with ud := { s.ud with photo_file_id := some file_id } }
  finish (tg env (.replyTextMarkup "What would you like to do with this image?" main_menu_keyboard) s1)

/-- `handle_image`. -/
def handle_image (env : Env) (chat_id : Int) (att : Attachment) (s : St) : HRes :=
  if !check_chat_permission chat_id then .done s
  else if s.ud.waiting_for_rename_image then
    process_rename_image env att s
  else
    match att with
    | .photo file_id => image_menu env file_id s
    | .document file_id mime_type =>
      if pyStartsWith mime_type "image/" then image_menu env file_id s
      else .done s

/-- The `try` body of the caption branch of `handle_text`:
    `requests.get(CAPTION_ENDPOINT, params={'cap': text}, timeout=30)`,
    `raise_for_status`, `.json()`, then reply with the `result` field. -/
def caption_try (env : Env) (text : String) (s : St) : BRes :=
  let s1 := { s with effects := s.effects ++ [Effect.httpGet CAPTION_ENDPOINT [("cap", text)] 30] }
  match env.httpResult with
  | .requestError => .exn .requestExn s1
  | .badJson => .exn .otherExn s1
  | .ok result =>
    match lookupField result "result" with
    | some r => tg env (.replyText r) s1
    | none => tg env (.replyText "Error: No result found in response.") s1

/-- The two `except` clauses of the caption branch of `handle_text`. -/
def caption_except (env : Env) (b : BRes) : HRes :=
  match b with
  | .ok s2 => .done s2
  | .exn .requestExn s2 =>
    finish (tg env (.replyText "Sorry, there was an error processing your text. Please try again later.") s2)
  | .exn .otherExn s2 =>
    finish (tg env (.replyText "An unexpected error occurred. Please try again later.") s2)

/-- `handle_text`.  The typing indicator precedes the `try` block. -/
def handle_text (env : Env) (chat_id : Int) (text : String) (s : St) : HRes :=
  if !check_chat_permission chat_id then .done s
  else if s.ud.waiting_for_rename_filename then
    process_rename_with_filename env text s
  else
    match tg env (.sendChatAction "typing") s with
    | .exn _ s1 => .raised s1
    | .ok s1 => caption_except env (caption_try env text s1)

/-- `get_image_base64`: `get_file`, download, then base64-encode, with an
    optional `data:image/jpeg;base64,` prefix. -/
def get_image_base64 (env : Env) (file_id : String) (include_data_url : Bool) (s : St) : StrRes :=
  match tg env (.getFile file_id) s with
  | .exn e s1 => .exn e s1
  | .ok s1 =>
    match tg env .downloadFile s1 with
    | .exn e s2 => .exn e s2
    | .ok s2 =>
      let base64_data := b64encode env.imageBytes
      if include_data_url then .ok ("data:image/jpeg;base64," ++ base64_data) s2
      else .ok base64_data s2

/-- Continuation of the upscale `try` body after `requests.post` /
    `raise_for_status` / `.json()`: check `upscaled_base64`, strip the
    data-URL prefix if present (`split(',')[1]` throws `IndexError` when
    there is no comma), decode, send the document, delete the processing
    message. -/
def upscale_after_post (env : Env) (scale_factor : String) (s : St) : BRes :=
  match env.httpResult with
  | .requestError => .exn .requestExn s
  | .badJson => .exn .otherExn s
  | .ok result =>
    match lookupField result "upscaled_base64" with
    | none => tg env (.editMessageText "❌ Error: Invalid response from upscale service." none) s
    | some base64_str0 =>
      match (if pyStartsWith base64_str0 "data:image" then (pySplit base64_str0 ',')[1]? else some base64_str0) with
      | none => .exn .otherExn s
      | some base64_str =>
        match b64decode base64_str with
        | none => .exn .otherExn s
        | some image_data =>
          match tg env (.sendDocument ("upscaled_" ++ scale_factor ++ ".png") ("✅ Image upscaled " ++ scale_factor) image_data) s with
          | .exn e s1 => .exn e s1
          | .ok s1 => tg env .deleteQueryMessage s1

/-- The `try` body of `process_upscale`: guard on `photo_file_id`, build
    the data-URL base64, POST `{base64_data, size}` with the bearer token
    and a 120s timeout for `4x`/`8x` (60s otherwise). -/
def upscale_try (env : Env) (scale_factor : String) (s : St) : BRes :=
  match s.ud.photo_file_id with
  | none => tg env (.editMessageText "❌ Error: Image not found. Please send the image again." none) s
  | some photo_file_id =>
    match get_image_base64 env photo_file_id true s with
    | .exn e s1 => .exn e s1
    | .ok base64_image s1 =>
      let timeout := if scale_factor ∈ (["4x", "8x"] : List String) then 120 else 60
      let s2 := { s1 with effects := s1.effects ++
        [Effect.httpPost { url := UPSCALE_ENDPOINT
                           auth := some ("Bearer " ++ BEARER_TOKEN)
                           body := [("base64_data", base64_image), ("size", scale_factor)]
                           timeout := timeout }] }
      upscale_after_post env scale_factor s2

/-- The two `except` clauses of `process_upscale`. -/
def upscale_except (env : Env) (b : BRes) : HRes :=
  match b with
  | .ok s1 => .done s1
  | .exn .requestExn s1 =>
    finish (tg env (.editMessageText "❌ Error processing upscale. Please try again later." none) s1)
  | .exn .otherExn s1 =>
    finish (tg env (.editMessageText "❌ An unexpected error occurred during upscaling." none) s1)

/-- `process_upscale`.  The initial edit to the processing status precedes
    the `try` block, so an exception it throws escapes the handler. -/
def process_upscale (env : Env) (scale_factor : String) (s : St) : HRes :=
  match tg env (.editMessageText "🔄 Processing upscale... Please wait." none) s with
  | .exn _ s1 => .raised s1
  | .ok s1 => upscale_except env (upscale_try env scale_factor s1)

/-- Continuation of the thumbnail `try` body after the POST: check
    `thumbnail`, decode (plain base64, no prefix stripping), send the
    document, delete the processing message. -/
def thumbnail_after_post (env : Env) (s : St) : BRes :=
  match env.httpResult with
  | .requestError => .exn .requestExn s
  | .badJson => .exn .otherExn s
  | .ok result =>
    match lookupField result "thumbnail" with
    | none => tg env (.editMessageText "❌ Error: Invalid response from thumbnail service." none) s
    | some thumb =>
      match b64decode thumb with
      | none => .exn .otherExn s
      | some image_data =>
        match tg env (.sendDocument "thumbnail.png" "✅ Thumbnail generated" image_data) s with
        | .exn e s1 => .exn e s1
        | .ok s1 => tg env .deleteQueryMessage s1

/-- The `try` body of `process_thumbnail`: guard on `photo_file_id`, plain
    base64 (no data-URL prefix), unauthenticated POST `{image}` with a 45s
    timeout. -/
def thumbnail_try (env : Env) (s : St) : BRes :=
  match s.ud.photo_file_id with
  | none => tg env (.editMessageText "❌ Error: Image not found. Please send the image again." none) s
  | some photo_file_id =>
    match get_image_base64 env photo_file_id false s with
    | .exn e s1 => .exn e s1
    | .ok base64_image s1 =>
      let s2 := { s1 with effects := s1.effects ++
        [Effect.httpPost { url := THUMBNAIL_ENDPOINT
                           auth := none
                           body := [("image", base64_image)]
                           timeout := 45 }] }
      thumbnail_after_post env s2

/-- The two `except` clauses of `process_thumbnail`. -/
def thumbnail_except (env : Env) (b : BRes) : HRes :=
  match b with
  | .ok s1 => .done s1
  | .exn .requestExn s1 =>
    finish (tg env (.editMessageText "❌ Error generating thumbnail. Please try again later." none) s1)
  | .exn .otherExn s1 =>
    finish (tg env (.editMessageText "❌ An unexpected error occurred during thumbnail generation." none) s1)

/-- `process_thumbnail`.  As with upscale, the initial status edit
    precedes the `try` block. -/
def process_thumbnail (env : Env) (s : St) : HRes :=
  match tg env (.editMessageText "🔄 Generating thumbnail... Please wait." none) s with
  | .exn _ s1 => .raised s1
  | .ok s1 => thumbnail_except env (thumbnail_try env s1)

/-- Body of `handle_callback` after the callback query is answered: the
    authorization check, then dispatch on the payload string.
    On the `upscale_` branch the factor is `query.data.split('_')[1]`,
    always in bounds because the separator occurs in the payload. -/
def callback_dispatch (env : Env) (chat_id : Int) (data : String) (s1 : St) : HRes :=
  if !check_chat_permission chat_id then .done s1
  else if data == "upscale_menu" then
    finish (tg env (.editMessageText "Choose upscale factor:" (some upscale_menu_keyboard)) s1)
  else if data == "back_to_main" then
    finish (tg env (.editMessageText "What would you like to do with this image?" (some main_menu_keyboard)) s1)
  else if pyStartsWith data "upscale_" then
    let scale_factor := (pySplit data '_').getD 1 ""
    process_upscale env scale_factor s1
  else if data == "thumbnail" then
    process_thumbnail env s1
  else .done s1

/-- `handle_callback`: answer the callback query first (before the
    authorization check and before any dispatch), then `callback_dispatch`. -/
def handle_callback (env : Env) (chat_id : Int) (data : String) (s : St) : HRes :=
  match tg env .answerCallbackQuery s with
  | .exn _ s1 => .raised s1
  | .ok s1 => callback_dispatch env chat_id data s1

/-- Dispatch of one inbound update to its registered handler (`main`). -/
def handle_event (env : Env) (chat_id : Int) (ev : Event) (s : St) : HRes :=
  match ev with
  | .cmd_start => start env chat_id s
  | .cmd_share => share env chat_id s
  | .cmd_rename => rename env chat_id s
  | .text t => handle_text env chat_id t s
  | .image att => handle_image env chat_id att s
  | .callback d => handle_callback env chat_id d s

/-! ## Observation functions and reachability -/

/-- Final running state of a handler outcome (mutations made before an
    escaping exception persist, since the session dictionary is ambient). -/
def HRes.st : HRes → St
  | .done s => s
  | .raised s => s

/-- Running state carried by a block result. -/
def BRes.st : BRes → St
  | .ok s => s
  | .exn _ s => s

/-- Running state carried by a string block result. -/
def StrRes.st : StrRes → St
  | .ok _ s => s
  | .exn _ s => s

/-- Trace of effects of a handler outcome. -/
def resEffects (r : HRes) : List Effect := r.st.effects

/-- Session state of a handler outcome. -/
def resUd (r : HRes) : UserData := r.st.ud

/-- Fresh running state at the start of an invocation. -/
def init_state (ud : UserData) : St := { ud := ud, effects := [], k := 0 }

/-- Session state after processing one event. -/
def step (env : Env) (chat_id : Int) (ev : Event) (ud : UserData) : UserData :=
  resUd (handle_event env chat_id ev (init_state ud))

/-- Session states reachable from the empty dictionary by any sequence of
    events under any environments. -/
inductive Reachable : UserData → Prop where
  | init : Reachable {}
  | next (env : Env) (chat_id : Int) (ev : Event) {ud : UserData} :
      Reachable ud → Reachable (step env chat_id ev ud)

/-- An environment in which every Telegram call succeeds. -/
def envOK : Env :=
  { telegramOk := fun _ => true, imageBytes := [], httpResult := .requestError }

/-- An environment in which only the first Telegram call (the callback
    answer) succeeds and every later one throws. -/
def envEditFails : Env :=
  { telegramOk := fun n => n == 0, imageBytes := [], httpResult := .requestError }

/-- An environment whose upscale response carries a data-URL-prefixed
    `upscaled_base64` value containing no comma. -/
def envNoComma : Env :=
  { telegramOk := fun _ => true
    imageBytes := []
    httpResult := .ok [("upscaled_base64", "data:image")] }

/-! ## Specification-side definitions (for comparison with the code) -/

/-- Replace each maximal run of whitespace characters by one underscore. -/
def collapseWsAux : Bool → List Char → List Char
  | _, [] => []
  | inRun, c :: rest =>
    if pyIsSpace c then
      (if inRun then [] else ['_']) ++ collapseWsAux true rest
    else c :: collapseWsAux false rest

/-- The sanitization rule exactly as claim C3 words it: strip
    leading/trailing whitespace; remove every character that is not a
    letter, digit, whitespace, hyphen, or underscore; replace every
    internal run of whitespace characters with underscores. -/
def sanitize_per_claim (s : String) : String :=
  let stripped := pyStrip s
  let kept := stripped.data.filter fun c => pyIsWordChar c || pyIsSpace c || c == '-'
  String.mk (collapseWsAux false kept)

/-- The amended sanitization rule: strip leading/trailing whitespace;
    remove every character that is not a letter, digit, whitespace,
    hyphen, or underscore; then turn each kept character into itself,
    except that each space character becomes one underscore (so a run of
    n spaces becomes n underscores, and other whitespace is kept). -/
def sanitize_spec_amended (s : String) : String :=
  String.mk ((pyStrip s).data.filterMap fun c =>
    if pyIsWordChar c || pyIsSpace c || c == '-' then
      some (if c == ' ' then '_' else c)
    else none)

/-! ## Helper lemmas: successful Telegram calls -/

theorem tg_all_ok {env : Env} (hOk : ∀ n, env.telegramOk n = true) (e : Effect) (s : St) :
    tg env e s = .ok { s with effects := s.effects ++ [e], k := s.k + 1 } := by
  simp [tg, hOk]

theorem finish_tg {env : Env} (hOk : ∀ n, env.telegramOk n = true) (e : Effect) (s : St) :
    finish (tg env e s) = .done { s with effects := s.effects ++ [e], k := s.k + 1 } := by
  rw [tg_all_ok hOk]; rfl

theorem finish_st (b : BRes) : (finish b).st = b.st := by
  cases b <;> rfl

/-! ## Helper lemmas: every operation only appends to the effect trace -/

/-- The trace of `s2` extends the trace of `s`. -/
def StPrefix (s s2 : St) : Prop := ∃ tl, s2.effects = s.effects ++ tl

theorem StPrefix.refl (s : St) : StPrefix s s := ⟨[], by simp⟩

theorem StPrefix.trans {a b c : St} (h1 : StPrefix a b) (h2 : StPrefix b c) : StPrefix a c := by
  obtain ⟨t1, h1⟩ := h1
  obtain ⟨t2, h2⟩ := h2
  exact ⟨t1 ++ t2, by rw [h2, h1, List.append_assoc]⟩

theorem tg_st_extends (env : Env) (e : Effect) (s : St) : StPrefix s (tg env e s).st := by
  unfold tg
  split
  · exact ⟨[e], rfl⟩
  · exact ⟨[], by simp [BRes.st]⟩

theorem tg_ok_extends {env : Env} {e : Effect} {s s1 : St}
    (h : tg env e s = BRes.ok s1) : StPrefix s s1 := by
  have hp := tg_st_extends env e s
  rw [h] at hp
  simpa [BRes.st] using hp

theorem tg_exn_extends {env : Env} {e : Effect} {s s1 : St} {ex : Exn}
    (h : tg env e s = BRes.exn ex s1) : StPrefix s s1 := by
  have hp := tg_st_extends env e s
  rw [h] at hp
  simpa [BRes.st] using hp

theorem get_image_base64_extends (env : Env) (fid : String) (flag : Bool) (s : St) :
    StPrefix s (get_image_base64 env fid flag s).st := by
  unfold get_image_base64
  cases h1 : tg env (.getFile fid) s with
  | exn e s1 => exact tg_exn_extends h1
  | ok s1 =>
    dsimp only
    cases h2 : tg env Effect.downloadFile s1 with
    | exn e s2 => exact (tg_ok_extends h1).trans (tg_exn_extends h2)
    | ok s2 =>
      dsimp only
      have hp := (tg_ok_extends h1).trans (tg_ok_extends h2)
      cases flag <;> simpa [StrRes.st] using hp

theorem upscale_after_post_extends (env : Env) (sf : String) (s : St) :
    StPrefix s (upscale_after_post env sf s).st := by
  unfold upscale_after_post
  cases env.httpResult with
  | requestError => exact StPrefix.refl s
  | badJson => exact StPrefix.refl s
  | ok result =>
    dsimp only
    cases lookupField result "upscaled_base64" with
    | none => exact tg_st_extends env _ s
    | some b0 =>
      dsimp only
      cases (if pyStartsWith b0 "data:image" then (pySplit b0 ',')[1]? else some b0) with
      | none => exact StPrefix.refl s
      | some b1 =>
        dsimp only
        cases b64decode b1 with
        | none => exact StPrefix.refl s
        | some bytes =>
          dsimp only
          cases hd : tg env (Effect.sendDocument ("upscaled_" ++ sf ++ ".png") ("✅ Image upscaled " ++ sf) bytes) s with
          | exn e s1 => exact tg_exn_extends hd
          | ok s1 => exact (tg_ok_extends hd).trans (tg_st_extends env Effect.deleteQueryMessage s1)

theorem upscale_try_extends (env : Env) (sf : String) (s : St) :
    StPrefix s (upscale_try env sf s).st := by
  unfold upscale_try
  cases s.ud.photo_file_id with
  | none => exact tg_st_extends env _ s
  | some fid =>
    dsimp only
    cases hg : get_image_base64 env fid true s with
    | exn e s1 =>
      have hp := get_image_base64_extends env fid true s
      rw [hg] at hp
      simpa [StrRes.st] using hp
    | ok v s1 =>
      dsimp only
      have h1 := get_image_base64_extends env fid true s
      rw [hg] at h1
      simp only [StrRes.st] at h1
      have h2 : StPrefix s1 { s1 with effects := s1.effects ++
        [Effect.httpPost { url := UPSCALE_ENDPOINT
                           auth := some ("Bearer " ++ BEARER_TOKEN)
                           body := [("base64_data", v), ("size", sf)]
                           timeout := if sf ∈ (["4x", "8x"] : List String) then 120 else 60 }] } :=
        ⟨_, rfl⟩
      exact h1.trans (h2.trans (upscale_after_post_extends env sf _))

theorem upscale_except_extends (env : Env) (b : BRes) :
    StPrefix b.st (upscale_except env b).st := by
  cases b with
  | ok s1 => exact StPrefix.refl s1
  | exn e s1 =>
    cases e with
    | requestExn =>
      have hp := tg_st_extends env (Effect.editMessageText "❌ Error processing upscale. Please try again later." none) s1
      simpa [upscale_except, finish_st, BRes.st] using hp
    | otherExn =>
      have hp := tg_st_extends env (Effect.editMessageText "❌ An unexpected error occurred during upscaling." none) s1
      simpa [upscale_except, finish_st, BRes.st] using hp

theorem process_upscale_extends (env : Env) (sf : String) (s : St) :
    StPrefix s (process_upscale env sf s).st := by
  unfold process_upscale
  cases h1 : tg env (Effect.editMessageText "🔄 Processing upscale... Please wait." none) s with
  | exn e s1 => exact tg_exn_extends h1
  | ok s1 =>
    dsimp only
    exact (tg_ok_extends h1).trans ((upscale_try_extends env sf s1).trans (upscale_except_extends env _))

theorem thumbnail_after_post_extends (env : Env) (s : St) :
    StPrefix s (thumbnail_after_post env s).st := by
  unfold thumbnail_after_post
  cases env.httpResult with
  | requestError => exact StPrefix.refl s
  | badJson => exact StPrefix.refl s
  | ok result =>
    dsimp only
    cases lookupField result "thumbnail" with
    | none => exact tg_st_extends env _ s
    | some b0 =>
      dsimp only
      cases b64decode b0 with
      | none => exact StPrefix.refl s
      | some bytes =>
        dsimp only
        cases hd : tg env (Effect.sendDocument "thumbnail.png" "✅ Thumbnail generated" bytes) s with
        | exn e s1 => exact tg_exn_extends hd
        | ok s1 => exact (tg_ok_extends hd).trans (tg_st_extends env Effect.deleteQueryMessage s1)

theorem thumbnail_try_extends (env : Env) (s : St) :
    StPrefix s (thumbnail_try env s).st := by
  unfold thumbnail_try
  cases s.ud.photo_file_id with
  | none => exact tg_st_extends env _ s
  | some fid =>
    dsimp only
    cases hg : get_image_base64 env fid false s with
    | exn e s1 =>
      have hp := get_image_base64_extends env fid false s
      rw [hg] at hp
      simpa [StrRes.st] using hp
    | ok v s1 =>
      dsimp only
      have h1 := get_image_base64_extends env fid false s
      rw [hg] at h1
      simp only [StrRes.st] at h1
      have h2 : StPrefix s1 { s1 with effects := s1.effects ++
        [Effect.httpPost { url := THUMBNAIL_ENDPOINT
                           auth := none
                           body := [("image", v)]
                           timeout := 45 }] } :=
        ⟨_, rfl⟩
      exact h1.trans (h2.trans (thumbnail_after_post_extends env _))

theorem thumbnail_except_extends (env : Env) (b : BRes) :
    StPrefix b.st (thumbnail_except env b).st := by
  cases b with
  | ok s1 => exact StPrefix.refl s1
  | exn e s1 =>
    cases e with
    | requestExn =>
      have hp := tg_st_extends env (Effect.editMessageText "❌ Error generating thumbnail. Please try again later." none) s1
      simpa [thumbnail_except, finish_st, BRes.st] using hp
    | otherExn =>
      have hp := tg_st_extends env (Effect.editMessageText "❌ An unexpected error occurred during thumbnail generation." none) s1
      simpa [thumbnail_except, finish_st, BRes.st] using hp

theorem process_thumbnail_extends (env : Env) (s : St) :
    StPrefix s (process_thumbnail env s).st := by
  unfold process_thumbnail
  cases h1 : tg env (Effect.editMessageText "🔄 Generating thumbnail... Please wait." none) s with
  | exn e s1 => exact tg_exn_extends h1
  | ok s1 =>
    dsimp only
    exact (tg_ok_extends h1).trans ((thumbnail_try_extends env s1).trans (thumbnail_except_extends env _))

theorem callback_dispatch_extends (env : Env) (chat_id : Int) (data : String) (s1 : St) :
    StPrefix s1 (callback_dispatch env chat_id data s1).st := by
  unfold callback_dispatch
  split
  · exact StPrefix.refl s1
  · split
    · have hp := tg_st_extends env (Effect.editMessageText "Choose upscale factor:" (some upscale_menu_keyboard)) s1
      simpa [finish_st] using hp
    · split
      · have hp := tg_st_extends env (Effect.editMessageText "What would you like to do with this image?" (some main_menu_keyboard)) s1
        simpa [finish_st] using hp
      · split
        · exact process_upscale_extends env _ s1
        · split
          · exact process_thumbnail_extends env s1
          · exact StPrefix.refl s1

/-! ## Helper lemmas: totality when the transport operations succeed -/

theorem upscale_except_total {env : Env} (hOk : ∀ n, env.telegramOk n = true) (b : BRes) :
    ∃ s2, upscale_except env b = .done s2 := by
  cases b with
  | ok s1 => exact ⟨s1, rfl⟩
  | exn e s1 =>
    cases e with
    | requestExn => exact ⟨_, finish_tg hOk _ _⟩
    | otherExn => exact ⟨_, finish_tg hOk _ _⟩

theorem process_upscale_total (env : Env) (sf : String) (s : St)
    (hOk : ∀ n, env.telegramOk n = true) :
    ∃ s2, process_upscale env sf s = .done s2 := by
  unfold process_upscale
  rw [tg_all_ok hOk]
  exact upscale_except_total hOk _

theorem thumbnail_except_total {env : Env} (hOk : ∀ n, env.telegramOk n = true) (b : BRes) :
    ∃ s2, thumbnail_except env b = .done s2 := by
  cases b with
  | ok s1 => exact ⟨s1, rfl⟩
  | exn e s1 =>
    cases e with
    | requestExn => exact ⟨_, finish_tg hOk _ _⟩
    | otherExn => exact ⟨_, finish_tg hOk _ _⟩

theorem process_thumbnail_total (env : Env) (s : St)
    (hOk : ∀ n, env.telegramOk n = true) :
    ∃ s2, process_thumbnail env s = .done s2 := by
  unfold process_thumbnail
  rw [tg_all_ok hOk]
  exact thumbnail_except_total hOk _

theorem process_rename_with_filename_total (env : Env) (t : String) (s : St)
    (hOk : ∀ n, env.telegramOk n = true) :
    ∃ s2, process_rename_with_filename env t s = .done s2 := by
  unfold process_rename_with_filename
  cases rename_try env t s with
  | ok s1 => exact ⟨s1, rfl⟩
  | exn e s1 =>
    dsimp only
    rw [tg_all_ok hOk]
    exact ⟨_, rfl⟩

theorem caption_except_total {env : Env} (hOk : ∀ n, env.telegramOk n = true) (b : BRes) :
    ∃ s2, caption_except env b = .done s2 := by
  cases b with
  | ok s1 => exact ⟨s1, rfl⟩
  | exn e s1 =>
    cases e with
    | requestExn => exact ⟨_, finish_tg hOk _ _⟩
    | otherExn => exact ⟨_, finish_tg hOk _ _⟩

theorem handle_text_total (env : Env) (chat_id : Int) (t : String) (s : St)
    (hOk : ∀ n, env.telegramOk n = true) :
    ∃ s2, handle_text env chat_id t s = .done s2 := by
  unfold handle_text
  split
  · exact ⟨s, rfl⟩
  · split
    · exact process_rename_with_filename_total env t s hOk
    · rw [tg_all_ok hOk]
      exact caption_except_total hOk _

theorem rename_image_captured_total (env : Env) (kind fid : String) (s : St)
    (hOk : ∀ n, env.telegramOk n = true) :
    ∃ s2, rename_image_captured env kind fid s = .done s2 := by
  unfold rename_image_captured
  exact ⟨_, finish_tg hOk _ _⟩

theorem process_rename_image_total (env : Env) (att : Attachment) (s : St)
    (hOk : ∀ n, env.telegramOk n = true) :
    ∃ s2, process_rename_image env att s = .done s2 := by
  unfold process_rename_image
  cases att with
  | photo fid => exact rename_image_captured_total env "photo" fid s hOk
  | document fid mime =>
    dsimp only
    split
    · exact rename_image_captured_total env "document" fid s hOk
    · exact ⟨_, finish_tg hOk _ _⟩

theorem image_menu_total (env : Env) (fid : String) (s : St)
    (hOk : ∀ n, env.telegramOk n = true) :
    ∃ s2, image_menu env fid s = .done s2 := by
  unfold image_menu
  exact ⟨_, finish_tg hOk _ _⟩

theorem handle_image_total (env : Env) (chat_id : Int) (att : Attachment) (s : St)
    (hOk : ∀ n, env.telegramOk n = true) :
    ∃ s2, handle_image env chat_id att s = .done s2 := by
  unfold handle_image
  split
  · exact ⟨s, rfl⟩
  · split
    · exact process_rename_image_total env att s hOk
    · cases att with
      | photo fid => exact image_menu_total env fid s hOk
      | document fid mime =>
        dsimp only
        split
        · exact image_menu_total env fid s hOk
        · exact ⟨s, rfl⟩

theorem callback_dispatch_total (env : Env) (chat_id : Int) (data : String) (s1 : St)
    (hOk : ∀ n, env.telegramOk n = true) :
    ∃ s2, callback_dispatch env chat_id data s1 = .done s2 := by
  unfold callback_dispatch
  split
  · exact ⟨s1, rfl⟩
  · split
    · exact ⟨_, finish_tg hOk _ _⟩
    · split
      · exact ⟨_, finish_tg hOk _ _⟩
      · split
        · exact process_upscale_total env _ s1 hOk
        · split
          · exact process_thumbnail_total env s1 hOk
          · exact ⟨s1, rfl⟩

theorem handle_callback_total (env : Env) (chat_id : Int) (data : String) (s : St)
    (hOk : ∀ n, env.telegramOk n = true) :
    ∃ s2, handle_callback env chat_id data s = .done s2 := by
  unfold handle_callback
  rw [tg_all_ok hOk]
  exact callback_dispatch_total env chat_id data _ hOk

theorem start_total (env : Env) (chat_id : Int) (s : St)
    (hOk : ∀ n, env.telegramOk n = true) :
    ∃ s2, start env chat_id s = .done s2 := by
  unfold start
  split
  · exact ⟨_, finish_tg hOk _ _⟩
  · exact ⟨_, finish_tg hOk _ _⟩

theorem share_total (env : Env) (chat_id : Int) (s : St)
    (hOk : ∀ n, env.telegramOk n = true) :
    ∃ s2, share env chat_id s = .done s2 := by
  unfold share
  split
  · exact ⟨_, finish_tg hOk _ _⟩
  · exact ⟨_, finish_tg hOk _ _⟩

theorem rename_total (env : Env) (chat_id : Int) (s : St)
    (hOk : ∀ n, env.telegramOk n = true) :
    ∃ s2, rename env chat_id s = .done s2 := by
  unfold rename
  split
  · exact ⟨_, finish_tg hOk _ _⟩
  · rw [tg_all_ok hOk]
    exact ⟨_, rfl⟩

theorem handle_event_total (env : Env) (chat_id : Int) (ev : Event) (s : St)
    (hOk : ∀ n, env.telegramOk n = true) :
    ∃ s2, handle_event env chat_id ev s = .done s2 := by
  cases ev with
  | cmd_start => exact start_total env chat_id s hOk
  | cmd_share => exact share_total env chat_id s hOk
  | cmd_rename => exact rename_total env chat_id s hOk
  | text t => exact handle_text_total env chat_id t s hOk
  | image att => exact handle_image_total env chat_id att s hOk
  | callback d => exact handle_callback_total env chat_id d s hOk

/-! ## Helper lemmas: strings and sanitization -/

theorem splitOnChar_of_not_mem (sep : Char) (l : List Char) (h : sep ∉ l) :
    splitOnChar sep l = [l] := by
  induction l with
  | nil => rfl
  | cons c rest ih =>
    have h1 : sep ∉ rest := fun hm => h (List.mem_cons_of_mem _ hm)
    have hc : ¬ c = sep := fun hc => h (by simp [hc])
    simp [splitOnChar, ih h1, hc]

theorem pySplit_of_not_mem (s : String) (sep : Char) (h : sep ∉ s.data) :
    pySplit s sep = [String.mk s.data] := by
  unfold pySplit
  rw [splitOnChar_of_not_mem sep s.data h]
  rfl

theorem filter_map_eq_filterMap (p : Char → Bool) (f : Char → Char) (l : List Char) :
    (l.filter p).map f = l.filterMap fun c => if p c then some (f c) else none := by
  induction l with
  | nil => rfl
  | cons c rest ih =>
    cases hc : p c with
    | true => simp [List.filter_cons, List.filterMap_cons, hc, ih]
    | false => simp [List.filter_cons, List.filterMap_cons, hc, ih]

/-! ## Claim C1 -/

/-- C1: the claimed invariant — in every reachable session state at most
    one of `waiting_for_rename_image` and `waiting_for_rename_filename`
    is true, preserved by every handler including `/rename` while
    `waiting_for_rename_filename` is already true — fails on the code:
    after `/rename`, a photo, and `/rename` again, both flags are true,
    because the `rename` handler sets `waiting_for_rename_image` without
    clearing `waiting_for_rename_filename`. -/
theorem C1_invariant_violated :
    ∃ ud, Reachable ud ∧
      ud.waiting_for_rename_image = true ∧ ud.waiting_for_rename_filename = true := by
  refine ⟨step envOK 12345678 Event.cmd_rename
      (step envOK 12345678 (Event.image (Attachment.photo "f1"))
        (step envOK 12345678 Event.cmd_rename {})),
    Reachable.next envOK 12345678 Event.cmd_rename
      (Reachable.next envOK 12345678 (Event.image (Attachment.photo "f1"))
        (Reachable.next envOK 12345678 Event.cmd_rename Reachable.init)), ?_, ?_⟩
  · decide
  · decide

/-! ## Claim C2 -/

/-- C2 counterexample: an exception thrown by the initial edit of the
    triggering message to the processing status in `process_upscale` is
    not caught inside the handler — `handle_callback` propagates it
    (`HRes.raised`) — so the claim that every exception raised while
    processing, including one raised by that initial edit, is surfaced as
    an error reply and never propagated, is false. -/
theorem C2_counterexample :
    handle_callback envEditFails 12345678 "upscale_4x"
      (init_state { photo_file_id := some "f1" }) =
    HRes.raised { ud := { photo_file_id := some "f1" }
                  effects := [Effect.answerCallbackQuery]
                  k := 1 } := by decide

/-- C2 amended: every exception raised inside a handler's try-protected
    region (service network errors and timeouts, malformed JSON, missing
    response fields, malformed data URLs, invalid base64) is caught and
    surfaced as an error reply, so whenever the transport operations
    themselves succeed, no exception escapes any handler for any event;
    only exceptions of transport operations outside the try blocks — in
    particular the initial processing-status edit in the upscale and
    thumbnail procedures — escape. -/
theorem C2_amended_total (env : Env) (chat_id : Int) (ev : Event) (ud : UserData)
    (hOk : ∀ n, env.telegramOk n = true) :
    ∃ s2, handle_event env chat_id ev (init_state ud) = HRes.done s2 :=
  handle_event_total env chat_id ev (init_state ud) hOk

/-- C2 amended, witness at a concrete event. -/
theorem C2_amended_total_witness :
    ∃ s2, handle_event envOK 12345678 Event.cmd_start (init_state {}) = HRes.done s2 :=
  C2_amended_total envOK 12345678 Event.cmd_start {} (fun _ => rfl)

/-! ## Claim C3 -/

/-- C3 counterexample: on the input "a&#9;b" (tab between a and b) the
    code's sanitization keeps the tab, while the claimed rule (every
    internal run of whitespace characters becomes underscores) yields
    `a_b`; so the claimed description of the sanitization is false at
    this input. -/
theorem C3_counterexample :
    clean_filename "a\tb" = "a\tb" ∧
    sanitize_per_claim "a\tb" = "a_b" ∧
    ¬ clean_filename "a\tb" = sanitize_per_claim "a\tb" := by decide

/-- C3 amended: the sanitization strips leading/trailing whitespace,
    removes every character that is not a letter, digit, whitespace,
    hyphen, or underscore, and replaces every space character with an
    underscore (other whitespace characters are kept, and a run of n
    spaces becomes n underscores); the example "My Pic!! 2024" still
    yields `My_Pic_2024.png`. -/
theorem C3_amended_sanitization :
    (∀ s, clean_filename s = sanitize_spec_amended s) ∧
    clean_filename "My Pic!! 2024" ++ ".png" = "My_Pic_2024.png" := by
  constructor
  · intro s
    unfold clean_filename sanitize_spec_amended
    dsimp only
    rw [filter_map_eq_filterMap]
  · decide

/-! ## Claim C4 -/

/-- C4: for every chat identifier other than the allow-listed one, each
    command handler (`/start`, `/share`, `/rename`) replies with the fixed
    rejection text and performs no other action (no session-state change),
    and a text message, an image message, and a callback press produce no
    reply and no session-state change (the callback is still
    acknowledged, which is not a reply). -/
theorem C4_unauthorized (chat_id : Int) (env : Env) (ud : UserData)
    (t : String) (att : Attachment) (d : String)
    (hne : ¬ chat_id = ALLOWED_CHAT_ID)
    (hOk : ∀ n, env.telegramOk n = true) :
    start env chat_id (init_state ud) =
      HRes.done { ud := ud
                  effects := [Effect.replyText "You are not authorized to use this bot."]
                  k := 1 } ∧
    share env chat_id (init_state ud) =
      HRes.done { ud := ud
                  effects := [Effect.replyText "You are not authorized to use this bot."]
                  k := 1 } ∧
    rename env chat_id (init_state ud) =
      HRes.done { ud := ud
                  effects := [Effect.replyText "You are not authorized to use this bot."]
                  k := 1 } ∧
    handle_text env chat_id t (init_state ud) = HRes.done (init_state ud) ∧
    handle_image env chat_id att (init_state ud) = HRes.done (init_state ud) ∧
    handle_callback env chat_id d (init_state ud) =
      HRes.done { ud := ud
                  effects := [Effect.answerCallbackQuery]
                  k := 1 } := by
  have hcp : check_chat_permission chat_id = false := by
    unfold check_chat_permission
    exact beq_eq_false_iff_ne.mpr hne
  refine ⟨?_, ?_, ?_, ?_, ?_, ?_⟩
  · simp [start, hcp, finish_tg hOk, init_state]
  · simp [share, hcp, finish_tg hOk, init_state]
  · simp [rename, hcp, finish_tg hOk, init_state]
  · simp [handle_text, hcp, init_state]
  · simp [handle_image, hcp, init_state]
  · simp [handle_callback, callback_dispatch, tg_all_ok hOk, hcp, init_state]

/-- C4 witness at a concrete unauthorized chat identifier. -/
theorem C4_unauthorized_witness :
    start envOK 0 (init_state {}) =
      HRes.done { ud := {}
                  effects := [Effect.replyText "You are not authorized to use this bot."]
                  k := 1 } ∧
    share envOK 0 (init_state {}) =
      HRes.done { ud := {}
                  effects := [Effect.replyText "You are not authorized to use this bot."]
                  k := 1 } ∧
    rename envOK 0 (init_state {}) =
      HRes.done { ud := {}
                  effects := [Effect.replyText "You are not authorized to use this bot."]
                  k := 1 } ∧
    handle_text envOK 0 "hello" (init_state {}) = HRes.done (init_state {}) ∧
    handle_image envOK 0 (Attachment.photo "f1") (init_state {}) = HRes.done (init_state {}) ∧
    handle_callback envOK 0 "thumbnail" (init_state {}) =
      HRes.done { ud := {}
                  effects := [Effect.answerCallbackQuery]
                  k := 1 } :=
  C4_unauthorized 0 envOK {} "hello" (Attachment.photo "f1") "thumbnail"
    (by decide) (fun _ => rfl)

/-! ## Claim C5 -/

/-- C5: for every callback event — any chat (authorized or not), any
    session state, any payload — the callback acknowledgement is the
    first effect of `handle_callback`, before the authorization check and
    before any payload dispatch. -/
theorem C5_callback_answered_first (env : Env) (chat_id : Int) (d : String) (ud : UserData)
    (h0 : env.telegramOk 0 = true) :
    ∃ tl, resEffects (handle_callback env chat_id d (init_state ud)) =
      Effect.answerCallbackQuery :: tl := by
  have h1 : tg env Effect.answerCallbackQuery (init_state ud) =
      BRes.ok { ud := ud, effects := [Effect.answerCallbackQuery], k := 1 } := by
    simp [tg, init_state, h0]
  unfold handle_callback
  rw [h1]
  dsimp only
  obtain ⟨tl, htl⟩ := callback_dispatch_extends env chat_id d
    { ud := ud, effects := [Effect.answerCallbackQuery], k := 1 }
  exact ⟨tl, by simpa [resEffects] using htl⟩

/-- C5 witness at a concrete callback event. -/
theorem C5_callback_answered_first_witness :
    ∃ tl, resEffects (handle_callback envOK 0 "upscale_menu" (init_state {})) =
      Effect.answerCallbackQuery :: tl :=
  C5_callback_answered_first envOK 0 "upscale_menu" {} rfl

/-! ## Claim C6 -/

/-- C6: for every captured image and every scale factor among 2x, 4x, 8x,
    the upscale procedure issues a bearer-token-authenticated POST whose
    JSON body has `base64_data` equal to the image bytes base64-encoded
    with the data-URL prefix and `size` equal to the factor, with timeout
    120 for 4x and 8x and 60 for 2x; the thumbnail procedure issues an
    unauthenticated POST whose body has `image` equal to the plain base64
    encoding with no prefix, with a 45-second timeout. -/
theorem C6_service_requests (env : Env) (ud : UserData) (fid sf : String)
    (hOk : ∀ n, env.telegramOk n = true)
    (hfid : ud.photo_file_id = some fid)
    (hsf : sf ∈ (["2x", "4x", "8x"] : List String)) :
    (∃ tl, resEffects (process_upscale env sf (init_state ud)) =
      [Effect.editMessageText "🔄 Processing upscale... Please wait." none,
       Effect.getFile fid, Effect.downloadFile,
       Effect.httpPost { url := UPSCALE_ENDPOINT
                         auth := some ("Bearer " ++ BEARER_TOKEN)
                         body := [("base64_data", "data:image/jpeg;base64," ++ b64encode env.imageBytes), ("size", sf)]
                         timeout := if sf = "2x" then 60 else 120 }] ++ tl) ∧
    (∃ tl, resEffects (process_thumbnail env (init_state ud)) =
      [Effect.editMessageText "🔄 Generating thumbnail... Please wait." none,
       Effect.getFile fid, Effect.downloadFile,
       Effect.httpPost { url := THUMBNAIL_ENDPOINT
                         auth := none
                         body := [("image", b64encode env.imageBytes)]
                         timeout := 45 }] ++ tl) := by
  have htime : (if sf ∈ (["4x", "8x"] : List String) then 120 else 60) =
      (if sf = "2x" then 60 else 120 : Nat) := by
    simp only [List.mem_cons, List.not_mem_nil, or_false] at hsf
    rcases hsf with rfl | rfl | rfl <;> decide
  constructor
  · set S : St :=
      { ud := ud
        effects := [Effect.editMessageText "🔄 Processing upscale... Please wait." none,
          Effect.getFile fid, Effect.downloadFile,
          Effect.httpPost { url := UPSCALE_ENDPOINT
                            auth := some ("Bearer " ++ BEARER_TOKEN)
                            body := [("base64_data", "data:image/jpeg;base64," ++ b64encode env.imageBytes), ("size", sf)]
                            timeout := if sf ∈ (["4x", "8x"] : List String) then 120 else 60 }]
        k := 3 } with hS
    have hrun : process_upscale env sf (init_state ud) =
        upscale_except env (upscale_after_post env sf S) := by
      rw [hS]
      simp [process_upscale, upscale_try, get_image_base64, tg_all_ok hOk, hfid, init_state]
    obtain ⟨t1, ht1⟩ := upscale_after_post_extends env sf S
    obtain ⟨t2, ht2⟩ := upscale_except_extends env (upscale_after_post env sf S)
    refine ⟨t1 ++ t2, ?_⟩
    rw [hrun]
    unfold resEffects
    rw [ht2, ht1, hS]
    dsimp only
    rw [htime]
    simp [List.append_assoc]
  · set S : St :=
      { ud := ud
        effects := [Effect.editMessageText "🔄 Generating thumbnail... Please wait." none,
          Effect.getFile fid, Effect.downloadFile,
          Effect.httpPost { url := THUMBNAIL_ENDPOINT
                            auth := none
                            body := [("image", b64encode env.imageBytes)]
                            timeout := 45 }]
        k := 3 } with hS
    have hrun : process_thumbnail env (init_state ud) =
        thumbnail_except env (thumbnail_after_post env S) := by
      rw [hS]
      simp [process_thumbnail, thumbnail_try, get_image_base64, tg_all_ok hOk, hfid, init_state]
    obtain ⟨t1, ht1⟩ := thumbnail_after_post_extends env S
    obtain ⟨t2, ht2⟩ := thumbnail_except_extends env (thumbnail_after_post env S)
    refine ⟨t1 ++ t2, ?_⟩
    rw [hrun]
    unfold resEffects
    rw [ht2, ht1, hS]
    simp [List.append_assoc]

/-- C6 witness at a concrete captured image and factor. -/
theorem C6_service_requests_witness :
    (∃ tl, resEffects (process_upscale envOK "4x" (init_state { photo_file_id := some "f1" })) =
      [Effect.editMessageText "🔄 Processing upscale... Please wait." none,
       Effect.getFile "f1", Effect.downloadFile,
       Effect.httpPost { url := UPSCALE_ENDPOINT
                         auth := some ("Bearer " ++ BEARER_TOKEN)
                         body := [("base64_data", "data:image/jpeg;base64," ++ b64encode envOK.imageBytes), ("size", "4x")]
                         timeout := if "4x" = "2x" then 60 else 120 }] ++ tl) ∧
    (∃ tl, resEffects (process_thumbnail envOK (init_state { photo_file_id := some "f1" })) =
      [Effect.editMessageText "🔄 Generating thumbnail... Please wait." none,
       Effect.getFile "f1", Effect.downloadFile,
       Effect.httpPost { url := THUMBNAIL_ENDPOINT
                         auth := none
                         body := [("image", b64encode envOK.imageBytes)]
                         timeout := 45 }] ++ tl) :=
  C6_service_requests envOK { photo_file_id := some "f1" } "f1" "4x"
    (fun _ => rfl) rfl (by decide)

/-! ## Claim C7 -/

/-- C7: if the stored rename file reference is present and the submitted
    filename sanitizes to the empty string, rename finalization replies
    with the rejection message and leaves the entire session state
    unchanged — in particular `waiting_for_rename_filename` and the file
    reference are kept. -/
theorem C7_empty_filename_state_kept (env : Env) (ud : UserData) (fid fn : String)
    (hOk : ∀ n, env.telegramOk n = true)
    (hwait : ud.waiting_for_rename_filename = true)
    (hfid : ud.rename_file_id = some fid)
    (hempty : clean_filename fn = "") :
    handle_text env ALLOWED_CHAT_ID fn (init_state ud) =
      HRes.done { ud := ud
                  effects := [Effect.replyText "❌ Please provide a valid filename with letters, numbers, spaces, hyphens, or underscores only."]
                  k := 1 } := by
  simp [handle_text, check_chat_permission, hwait, init_state,
        process_rename_with_filename, rename_try, hfid, hempty, tg_all_ok hOk]

/-- C7 witness: the filename "!!!" sanitizes to the empty string and the
    session state survives untouched. -/
theorem C7_empty_filename_state_kept_witness :
    handle_text envOK ALLOWED_CHAT_ID "!!!"
      (init_state { waiting_for_rename_filename := true, rename_file_id := some "f1" }) =
      HRes.done { ud := { waiting_for_rename_filename := true, rename_file_id := some "f1" }
                  effects := [Effect.replyText "❌ Please provide a valid filename with letters, numbers, spaces, hyphens, or underscores only."]
                  k := 1 } :=
  C7_empty_filename_state_kept envOK
    { waiting_for_rename_filename := true, rename_file_id := some "f1" } "f1" "!!!"
    (fun _ => rfl) rfl rfl (by decide)

/-! ## Claim C8 -/

/-- C8: for every failure of the remote service — network error/timeout
    (`requests` exception), malformed JSON, or missing result field — in
    the upscale or thumbnail procedure, the user receives a short error
    message (the final edit of the status message) and the session state,
    in particular `photo_file_id`, is left unchanged, so the image can be
    retried without being re-sent. -/
theorem C8_failure_keeps_pending_image (env : Env) (ud : UserData) (fid sf : String)
    (hOk : ∀ n, env.telegramOk n = true)
    (hfid : ud.photo_file_id = some fid) :
    (env.httpResult = HttpResult.requestError →
      process_upscale env sf (init_state ud) =
        HRes.done { ud := ud
                    effects := [Effect.editMessageText "🔄 Processing upscale... Please wait." none,
                      Effect.getFile fid, Effect.downloadFile,
                      Effect.httpPost { url := UPSCALE_ENDPOINT
                                        auth := some ("Bearer " ++ BEARER_TOKEN)
                                        body := [("base64_data", "data:image/jpeg;base64," ++ b64encode env.imageBytes), ("size", sf)]
                                        timeout := if sf ∈ (["4x", "8x"] : List String) then 120 else 60 },
                      Effect.editMessageText "❌ Error processing upscale. Please try again later." none]
                    k := 4 }) ∧
    (env.httpResult = HttpResult.badJson →
      process_upscale env sf (init_state ud) =
        HRes.done { ud := ud
                    effects := [Effect.editMessageText "🔄 Processing upscale... Please wait." none,
                      Effect.getFile fid, Effect.downloadFile,
                      Effect.httpPost { url := UPSCALE_ENDPOINT
                                        auth := some ("Bearer " ++ BEARER_TOKEN)
                                        body := [("base64_data", "data:image/jpeg;base64," ++ b64encode env.imageBytes), ("size", sf)]
                                        timeout := if sf ∈ (["4x", "8x"] : List String) then 120 else 60 },
                      Effect.editMessageText "❌ An unexpected error occurred during upscaling." none]
                    k := 4 }) ∧
    (∀ fields, env.httpResult = HttpResult.ok fields →
      lookupField fields "upscaled_base64" = none →
      process_upscale env sf (init_state ud) =
        HRes.done { ud := ud
                    effects := [Effect.editMessageText "🔄 Processing upscale... Please wait." none,
                      Effect.getFile fid, Effect.downloadFile,
                      Effect.httpPost { url := UPSCALE_ENDPOINT
                                        auth := some ("Bearer " ++ BEARER_TOKEN)
                                        body := [("base64_data", "data:image/jpeg;base64," ++ b64encode env.imageBytes), ("size", sf)]
                                        timeout := if sf ∈ (["4x", "8x"] : List String) then 120 else 60 },
                      Effect.editMessageText "❌ Error: Invalid response from upscale service." none]
                    k := 4 }) ∧
    (env.httpResult = HttpResult.requestError →
      process_thumbnail env (init_state ud) =
        HRes.done { ud := ud
                    effects := [Effect.editMessageText "🔄 Generating thumbnail... Please wait." none,
                      Effect.getFile fid, Effect.downloadFile,
                      Effect.httpPost { url := THUMBNAIL_ENDPOINT
                                        auth := none
                                        body := [("image", b64encode env.imageBytes)]
                                        timeout := 45 },
                      Effect.editMessageText "❌ Error generating thumbnail. Please try again later." none]
                    k := 4 }) ∧
    (env.httpResult = HttpResult.badJson →
      process_thumbnail env (init_state ud) =
        HRes.done { ud := ud
                    effects := [Effect.editMessageText "🔄 Generating thumbnail... Please wait." none,
                      Effect.getFile fid, Effect.downloadFile,
                      Effect.httpPost { url := THUMBNAIL_ENDPOINT
                                        auth := none
                                        body := [("image", b64encode env.imageBytes)]
                                        timeout := 45 },
                      Effect.editMessageText "❌ An unexpected error occurred during thumbnail generation." none]
                    k := 4 }) ∧
    (∀ fields, env.httpResult = HttpResult.ok fields →
      lookupField fields "thumbnail" = none →
      process_thumbnail env (init_state ud) =
        HRes.done { ud := ud
                    effects := [Effect.editMessageText "🔄 Generating thumbnail... Please wait." none,
                      Effect.getFile fid, Effect.downloadFile,
                      Effect.httpPost { url := THUMBNAIL_ENDPOINT
                                        auth := none
                                        body := [("image", b64encode env.imageBytes)]
                                        timeout := 45 },
                      Effect.editMessageText "❌ Error: Invalid response from thumbnail service." none]
                    k := 4 }) := by
  refine ⟨?_, ?_, ?_, ?_, ?_, ?_⟩
  · intro h
    simp [process_upscale, upscale_try, upscale_after_post, upscale_except,
          get_image_base64, tg_all_ok hOk, finish_tg hOk, finish, hfid, h, init_state]
  · intro h
    simp [process_upscale, upscale_try, upscale_after_post, upscale_except,
          get_image_base64, tg_all_ok hOk, finish_tg hOk, finish, hfid, h, init_state]
  · intro fields h hlook
    simp [process_upscale, upscale_try, upscale_after_post, upscale_except,
          get_image_base64, tg_all_ok hOk, finish_tg hOk, finish, hfid, h, hlook, init_state]
  · intro h
    simp [process_thumbnail, thumbnail_try, thumbnail_after_post, thumbnail_except,
          get_image_base64, tg_all_ok hOk, finish_tg hOk, finish, hfid, h, init_state]
  · intro h
    simp [process_thumbnail, thumbnail_try, thumbnail_after_post, thumbnail_except,
          get_image_base64, tg_all_ok hOk, finish_tg hOk, finish, hfid, h, init_state]
  · intro fields h hlook
    simp [process_thumbnail, thumbnail_try, thumbnail_after_post, thumbnail_except,
          get_image_base64, tg_all_ok hOk, finish_tg hOk, finish, hfid, h, hlook, init_state]

/-- C8 witness: a network failure on upscale and on thumbnail, at a
    concrete captured image. -/
theorem C8_failure_keeps_pending_image_witness :
    process_upscale envOK "4x" (init_state { photo_file_id := some "f1" }) =
      HRes.done { ud := { photo_file_id := some "f1" }
                  effects := [Effect.editMessageText "🔄 Processing upscale... Please wait." none,
                    Effect.getFile "f1", Effect.downloadFile,
                    Effect.httpPost { url := UPSCALE_ENDPOINT
                                      auth := some ("Bearer " ++ BEARER_TOKEN)
                                      body := [("base64_data", "data:image/jpeg;base64," ++ b64encode envOK.imageBytes), ("size", "4x")]
                                      timeout := if "4x" ∈ (["4x", "8x"] : List String) then 120 else 60 },
                    Effect.editMessageText "❌ Error processing upscale. Please try again later." none]
                  k := 4 } ∧
    process_thumbnail envOK (init_state { photo_file_id := some "f1" }) =
      HRes.done { ud := { photo_file_id := some "f1" }
                  effects := [Effect.editMessageText "🔄 Generating thumbnail... Please wait." none,
                    Effect.getFile "f1", Effect.downloadFile,
                    Effect.httpPost { url := THUMBNAIL_ENDPOINT
                                      auth := none
                                      body := [("image", b64encode envOK.imageBytes)]
                                      timeout := 45 },
                    Effect.editMessageText "❌ Error generating thumbnail. Please try again later." none]
                  k := 4 } := by
  have h := C8_failure_keeps_pending_image envOK { photo_file_id := some "f1" } "f1" "4x"
    (fun _ => rfl) rfl
  exact ⟨h.1 rfl, h.2.2.2.1 rfl⟩

/-! ## Claim C9 -/

/-- C9: the pure menu-navigation callbacks `upscale_menu` and
    `back_to_main` redraw their fixed menu and leave the session state
    exactly as before; since the redraw and the resulting state do not
    depend on anything a press changes, repeated identical presses
    produce the same redraw each time, and pressing twice leaves the same
    state as pressing once. -/
theorem C9_navigation_idempotent (env : Env) (ud : UserData)
    (hOk : ∀ n, env.telegramOk n = true) :
    handle_callback env ALLOWED_CHAT_ID "upscale_menu" (init_state ud) =
      HRes.done { ud := ud
                  effects := [Effect.answerCallbackQuery,
                    Effect.editMessageText "Choose upscale factor:" (some upscale_menu_keyboard)]
                  k := 2 } ∧
    handle_callback env ALLOWED_CHAT_ID "back_to_main" (init_state ud) =
      HRes.done { ud := ud
                  effects := [Effect.answerCallbackQuery,
                    Effect.editMessageText "What would you like to do with this image?" (some main_menu_keyboard)]
                  k := 2 } ∧
    step env ALLOWED_CHAT_ID (Event.callback "upscale_menu") ud = ud ∧
    step env ALLOWED_CHAT_ID (Event.callback "back_to_main")
      (step env ALLOWED_CHAT_ID (Event.callback "back_to_main") ud) = ud := by
  refine ⟨?_, ?_, ?_, ?_⟩
  · simp [handle_callback, callback_dispatch, tg_all_ok hOk, finish_tg hOk, finish,
          check_chat_permission, init_state]
  · simp [handle_callback, callback_dispatch, tg_all_ok hOk, finish_tg hOk, finish,
          check_chat_permission, init_state]
  · simp [step, handle_event, handle_callback, callback_dispatch, tg_all_ok hOk,
          finish_tg hOk, finish, check_chat_permission, init_state, resUd, HRes.st]
  · simp [step, handle_event, handle_callback, callback_dispatch, tg_all_ok hOk,
          finish_tg hOk, finish, check_chat_permission, init_state, resUd, HRes.st]

/-- C9 witness at a concrete session state. -/
theorem C9_navigation_idempotent_witness :
    handle_callback envOK ALLOWED_CHAT_ID "upscale_menu" (init_state { photo_file_id := some "f1" }) =
      HRes.done { ud := { photo_file_id := some "f1" }
                  effects := [Effect.answerCallbackQuery,
                    Effect.editMessageText "Choose upscale factor:" (some upscale_menu_keyboard)]
                  k := 2 } ∧
    handle_callback envOK ALLOWED_CHAT_ID "back_to_main" (init_state { photo_file_id := some "f1" }) =
      HRes.done { ud := { photo_file_id := some "f1" }
                  effects := [Effect.answerCallbackQuery,
                    Effect.editMessageText "What would you like to do with this image?" (some main_menu_keyboard)]
                  k := 2 } ∧
    step envOK ALLOWED_CHAT_ID (Event.callback "upscale_menu") { photo_file_id := some "f1" } =
      { photo_file_id := some "f1" } ∧
    step envOK ALLOWED_CHAT_ID (Event.callback "back_to_main")
      (step envOK ALLOWED_CHAT_ID (Event.callback "back_to_main") { photo_file_id := some "f1" }) =
      { photo_file_id := some "f1" } :=
  C9_navigation_idempotent envOK { photo_file_id := some "f1" } (fun _ => rfl)

/-! ## Claim C10 -/

/-- C10: when the upscale response's `upscaled_base64` field starts with
    "data:image" but contains no comma, `split(',')[1]` throws, the
    catch-all branch reports the generic unexpected-error message — not
    the invalid-response message — and no document is sent (the full
    trace contains no `sendDocument`). -/
theorem C10_dataurl_no_comma_generic_error (env : Env) (ud : UserData)
    (fid str sf : String) (fields : List (String × String))
    (hOk : ∀ n, env.telegramOk n = true)
    (hfid : ud.photo_file_id = some fid)
    (hres : env.httpResult = HttpResult.ok fields)
    (hfield : lookupField fields "upscaled_base64" = some str)
    (hpre : pyStartsWith str "data:image" = true)
    (hcomma : ',' ∉ str.data) :
    process_upscale env sf (init_state ud) =
      HRes.done { ud := ud
                  effects := [Effect.editMessageText "🔄 Processing upscale... Please wait." none,
                    Effect.getFile fid, Effect.downloadFile,
                    Effect.httpPost { url := UPSCALE_ENDPOINT
                                      auth := some ("Bearer " ++ BEARER_TOKEN)
                                      body := [("base64_data", "data:image/jpeg;base64," ++ b64encode env.imageBytes), ("size", sf)]
                                      timeout := if sf ∈ (["4x", "8x"] : List String) then 120 else 60 },
                    Effect.editMessageText "❌ An unexpected error occurred during upscaling." none]
                  k := 4 } := by
  have hsplit : (pySplit str ',')[1]? = none := by
    rw [pySplit_of_not_mem str ',' hcomma]
    rfl
  simp [process_upscale, upscale_try, upscale_after_post, upscale_except,
        get_image_base64, tg_all_ok hOk, finish_tg hOk, finish, hfid, hres, hfield,
        hpre, hsplit, init_state]

/-- C10 witness: the concrete response value "data:image". -/
theorem C10_dataurl_no_comma_generic_error_witness :
    process_upscale envNoComma "4x" (init_state { photo_file_id := some "f1" }) =
      HRes.done { ud := { photo_file_id := some "f1" }
                  effects := [Effect.editMessageText "🔄 Processing upscale... Please wait." none,
                    Effect.getFile "f1", Effect.downloadFile,
                    Effect.httpPost { url := UPSCALE_ENDPOINT
                                      auth := some ("Bearer " ++ BEARER_TOKEN)
                                      body := [("base64_data", "data:image/jpeg;base64," ++ b64encode envNoComma.imageBytes), ("size", "4x")]
                                      timeout := if "4x" ∈ (["4x", "8x"] : List String) then 120 else 60 },
                    Effect.editMessageText "❌ An unexpected error occurred during upscaling." none]
                  k := 4 } :=
  C10_dataurl_no_comma_generic_error envNoComma { photo_file_id := some "f1" }
    "f1" "data:image" "4x" [("upscaled_base64", "data:image")]
    (fun _ => rfl) rfl rfl rfl (by decide) (by decide)
